import Mathlib

set_option autoImplicit false

/-!
Verification of the cert-decoder command-line tool (src/main.rs).

The tool's `execute` function takes a `FileProcessor` capability (dependency
injection for filesystem access) and the list of command-line arguments.
It checks that exactly one argument was given, that the argument denotes a
regular file, reads the file, decodes PEM armor to DER bytes via the external
`x509_parser` crate's `pem_to_der`, parses the bytes via `parse_x509_der`,
and prints the pretty debug rendering of the certificate's `tbs_certificate`
sub-structure to standard output.

The embedding below models `execute` as a pure function from the injected
capabilities and the argument list to a result together with the text written
to standard output.  The external library functions (`pem_to_der`,
`parse_x509_der`, and the derived Debug formatter on the to-be-signed
structure) are not part of this repository; they are modeled as an abstract
record of functions `X509Lib` over which the theorems quantify.  Bytes are
modeled as `List Nat` (each entry the value of one byte).
-/

/-- Capability record mirroring the Rust trait `FileProcessor`:
`is_file` reports whether a path denotes a regular file, and
`read_to_string` reads the whole file as text or fails with an error
message (Rust `Result<String, Box<dyn Error>>`, the error carried here as
its display text). -/
structure FileProcessor where
  is_file : String → Bool
  read_to_string : String → Except String String

/-- The PEM block produced by the external crate's `pem_to_der`
(Rust struct `Pem` with a label and the decoded DER bytes). -/
structure PemBlock where
  label : String
  contents : List Nat
deriving Repr, DecidableEq

/-- The parsed certificate returned by `parse_x509_der`.  `execute` only
accesses the `tbs_certificate` field, whose library-defined type is the
type parameter; the signature fields of the Rust struct are never read by
this tool and are omitted. -/
structure Certificate (Tbs : Type) where
  tbs_certificate : Tbs

/-- The external x509_parser library surface used by `execute`:
the PEM decoder and the DER certificate parser both return the unconsumed
remainder of their input together with their product (nom-style
`IResult`), and `debugFmt` is the derived pretty Debug formatter applied
by the tool's `format` call to the to-be-signed structure. -/
structure X509Lib (Tbs : Type) where
  pem_to_der : List Nat → Except String (List Nat × PemBlock)
  parse_x509_der : List Nat → Except String (List Nat × Certificate Tbs)
  debugFmt : Tbs → String

/-- The UTF-8 bytes of a string, mirroring Rust `str::as_bytes`. -/
def asBytes (s : String) : List Nat :=
  s.toUTF8.toList.map (fun b => b.toNat)

/-- Result of running the tool: `ok` on success, `err` with the error's
display text on failure, and `panic` marking a runtime abort (used to model
the out-of-bounds indexing check of `args[0]`). -/
inductive RunResult (α : Type) where
  | ok : α → RunResult α
  | err : String → RunResult α
  | panic : String → RunResult α
deriving Repr, DecidableEq

/-- Whether a run result is a runtime abort. -/
def RunResult.isPanic {α : Type} : RunResult α → Bool
  | .panic _ => true
  | _ => false

/-- The observable outcome of `execute`: its return value and the full text
written to standard output. -/
structure ExecOutput where
  result : RunResult Unit
  stdout : String
deriving Repr, DecidableEq

/-- The fixed usage-error message of the argument-count check. -/
def usageErrMsg : String :=
  "Error: did not receive a single argument, please invoke cert-decoder as follows: ./cert-decoder /path/to/cert."

/-- The fixed path-error message of the regular-file check. -/
def pathErrMsg : String :=
  "Error: path given as argument is not a regular file, it must be a path to a certificate!"

/-- Shallow embedding of the Rust function `execute`.  The branches follow
the source line by line: argument-count check, `args[0]` (modeled via
`List.get?` with an explicit panic on `none`, mirroring Rust's bounds
check), regular-file check, `read_to_string`, `pem_to_der` on the content's
bytes discarding the remainder, `parse_x509_der` on the PEM contents
discarding the remainder, then `println!` of the pretty-formatted
`tbs_certificate` (which appends a newline). -/
def execute {Tbs : Type} (lib : X509Lib Tbs) (processor : FileProcessor)
    (args : List String) : ExecOutput :=
  if args.length ≠ 1 then
    { result := .err usageErrMsg, stdout := "" }
  else
    match args.get? 0 with
    | none => { result := .panic "index out of bounds", stdout := "" }
    | some path =>
      if !(processor.is_file path) then
        { result := .err pathErrMsg, stdout := "" }
      else
        match processor.read_to_string path with
        | .error e => { result := .err e, stdout := "" }
        | .ok cert =>
          match lib.pem_to_der (asBytes cert) with
          | .error e => { result := .err e, stdout := "" }
          | .ok (_, pem) =>
            match lib.parse_x509_der pem.contents with
            | .error e => { result := .err e, stdout := "" }
            | .ok (_, parsed_cert) =>
              let output := lib.debugFmt parsed_cert.tbs_certificate
              { result := .ok (), stdout := output ++ "\n" }

/-- One observable call made by `execute` to an injected or external
capability. -/
inductive Call where
  | isFile : String → Call
  | readToString : String → Call
  | pemToDer : Call
  | parseX509Der : Call
deriving Repr, DecidableEq

/-- Whether a call is an invocation of the `read_to_string` capability. -/
def Call.isRead : Call → Bool
  | .readToString _ => true
  | _ => false

/-- `ExecOutput` together with the sequence of capability calls `execute`
makes, in order. -/
structure TraceOutput where
  result : RunResult Unit
  stdout : String
  calls : List Call
deriving Repr, DecidableEq

/-- `execute` instrumented with the list of capability calls it performs, in
program order.  The branch structure is identical to `execute`; each
invocation of `is_file`, `read_to_string`, `pem_to_der` or `parse_x509_der`
is recorded just before the corresponding step runs. -/
def executeTrace {Tbs : Type} (lib : X509Lib Tbs) (processor : FileProcessor)
    (args : List String) : TraceOutput :=
  if args.length ≠ 1 then
    { result := .err usageErrMsg, stdout := "", calls := [] }
  else
    match args.get? 0 with
    | none => { result := .panic "index out of bounds", stdout := "", calls := [] }
    | some path =>
      if !(processor.is_file path) then
        { result := .err pathErrMsg, stdout := "", calls := [.isFile path] }
      else
        match processor.read_to_string path with
        | .error e =>
          { result := .err e, stdout := ""
            calls := [.isFile path, .readToString path] }
        | .ok cert =>
          match lib.pem_to_der (asBytes cert) with
          | .error e =>
            { result := .err e, stdout := ""
              calls := [.isFile path, .readToString path, .pemToDer] }
          | .ok (_, pem) =>
            match lib.parse_x509_der pem.contents with
            | .error e =>
              { result := .err e, stdout := ""
                calls := [.isFile path, .readToString path, .pemToDer, .parseX509Der] }
            | .ok (_, parsed_cert) =>
              let output := lib.debugFmt parsed_cert.tbs_certificate
              { result := .ok (), stdout := output ++ "\n"
                calls := [.isFile path, .readToString path, .pemToDer, .parseX509Der] }

/-- Concrete library instance for witnesses: both decode steps succeed and
the formatter prints a fixed string. -/
def libTrivial : X509Lib Unit where
  pem_to_der := fun bs => Except.ok (bs, { label := "CERTIFICATE", contents := [48] })
  parse_x509_der := fun _ => Except.ok ([], { tbs_certificate := () })
  debugFmt := fun _ => "TBSCertificate"

/-- Concrete library instance for witnesses: PEM decoding fails. -/
def libFailPem : X509Lib Unit where
  pem_to_der := fun _ => Except.error "pem decode failure"
  parse_x509_der := fun _ => Except.ok ([], { tbs_certificate := () })
  debugFmt := fun _ => "TBSCertificate"

/-- Concrete library instance for witnesses: PEM decoding succeeds but DER
parsing fails. -/
def libFailParse : X509Lib Unit where
  pem_to_der := fun bs => Except.ok (bs, { label := "CERTIFICATE", contents := [48] })
  parse_x509_der := fun _ => Except.error "der parse failure"
  debugFmt := fun _ => "TBSCertificate"

/-- Concrete processor for witnesses: every path is a regular file and
reading yields the given content. -/
def procContent (content : String) : FileProcessor where
  is_file := fun _ => true
  read_to_string := fun _ => Except.ok content

/-- Concrete processor for witnesses: no path is a regular file. -/
def procFalse : FileProcessor where
  is_file := fun _ => false
  read_to_string := fun _ => Except.ok ""

/-- A second processor, defined separately but answering exactly as
`procFalse` does on every path. -/
def procFalseAlt : FileProcessor where
  is_file := fun _ => false
  read_to_string := fun _ => Except.ok ""

/-- Concrete processor for witnesses: every path is a regular file but
reading fails. -/
def procReadFail : FileProcessor where
  is_file := fun _ => true
  read_to_string := fun _ => Except.error "read failure"

/-- C1: whenever the argument list does not have exactly one element,
`execute` fails with exactly the fixed usage-error message, for every
library and every `FileProcessor`. -/
theorem execute_usage_error {Tbs : Type} (lib : X509Lib Tbs)
    (p : FileProcessor) (args : List String) (h : args.length ≠ 1) :
    (execute lib p args).result = RunResult.err usageErrMsg := by
  simp [execute, h]

/-- Witness for C1: the empty argument list triggers the usage error. -/
theorem execute_usage_error_witness :
    (execute libTrivial procFalse []).result = RunResult.err usageErrMsg :=
  execute_usage_error libTrivial procFalse [] (by decide)

/-- C2: for a single-element argument list whose path the `FileProcessor`
reports not to be a regular file, `execute` fails with exactly the fixed
path-error message, regardless of the path string. -/
theorem execute_path_error {Tbs : Type} (lib : X509Lib Tbs)
    (p : FileProcessor) (path : String) (h : p.is_file path = false) :
    (execute lib p [path]).result = RunResult.err pathErrMsg := by
  simp [execute, h]

/-- Witness for C2: `procFalse` rejects the path, so the path error is
returned. -/
theorem execute_path_error_witness :
    (execute libTrivial procFalse ["some-path"]).result = RunResult.err pathErrMsg :=
  execute_path_error libTrivial procFalse "some-path" rfl

/-- C3: for a single-element argument list whose path is reported a regular
file, whose content is read successfully, and for which both the PEM decode
and the X.509 parse succeed, `execute` succeeds and writes exactly the
pretty debug rendering of the certificate's to-be-signed sub-structure
followed by a newline, and this output is non-empty. -/
theorem execute_valid_cert_ok {Tbs : Type} (lib : X509Lib Tbs)
    (p : FileProcessor) (path content : String) (rest1 rest2 : List Nat)
    (pem : PemBlock) (cert : Certificate Tbs)
    (hf : p.is_file path = true)
    (hr : p.read_to_string path = Except.ok content)
    (hp : lib.pem_to_der (asBytes content) = Except.ok (rest1, pem))
    (hx : lib.parse_x509_der pem.contents = Except.ok (rest2, cert)) :
    execute lib p [path] =
      { result := RunResult.ok (), stdout := lib.debugFmt cert.tbs_certificate ++ "\n" }
    ∧ 0 < (execute lib p [path]).stdout.length := by
  have h1 : execute lib p [path] =
      { result := RunResult.ok (), stdout := lib.debugFmt cert.tbs_certificate ++ "\n" } := by
    simp [execute, hf, hr, hp, hx]
  refine ⟨h1, ?_⟩
  rw [h1]
  have h3 : ("\n" : String).length = 1 := rfl
  have h2 : (lib.debugFmt cert.tbs_certificate ++ "\n").length
      = (lib.debugFmt cert.tbs_certificate).length + 1 := by
    rw [String.length_append, h3]
  simp only [h2]
  omega

/-- Witness for C3: a concrete library whose decode and parse steps succeed
yields success and the formatted output plus newline. -/
theorem execute_valid_cert_ok_witness :
    execute libTrivial (procContent "x") ["p"] =
      { result := RunResult.ok (), stdout := "TBSCertificate" ++ "\n" }
    ∧ 0 < (execute libTrivial (procContent "x") ["p"]).stdout.length :=
  execute_valid_cert_ok libTrivial (procContent "x") "p" "x" (asBytes "x") []
    { label := "CERTIFICATE", contents := [48] } { tbs_certificate := () }
    rfl rfl rfl rfl

/-- C4: whenever `execute` returns an error — at any checkpoint — nothing at
all has been written to standard output. -/
theorem execute_no_partial_output {Tbs : Type} (lib : X509Lib Tbs)
    (p : FileProcessor) (args : List String) (e : String)
    (h : (execute lib p args).result = RunResult.err e) :
    (execute lib p args).stdout = "" := by
  rcases args with _ | ⟨a, _ | ⟨b, rest⟩⟩
  · simp [execute]
  · cases hf : p.is_file a
    · simp [execute, hf]
    · cases hr : p.read_to_string a with
      | error e2 => simp [execute, hf, hr]
      | ok content =>
        cases hp : lib.pem_to_der (asBytes content) with
        | error e2 => simp [execute, hf, hr, hp]
        | ok pr =>
          obtain ⟨r1, pem⟩ := pr
          cases hx : lib.parse_x509_der pem.contents with
          | error e2 => simp [execute, hf, hr, hp, hx]
          | ok pc =>
            obtain ⟨r2, cert⟩ := pc
            simp [execute, hf, hr, hp, hx] at h
  · simp [execute]

/-- Witness for C4: the path-error case produces empty standard output. -/
theorem execute_no_partial_output_witness :
    (execute libTrivial procFalse ["p"]).stdout = "" :=
  execute_no_partial_output libTrivial procFalse ["p"] pathErrMsg rfl

/-- C5: for a single-element argument list whose path passes the
regular-file check, the `read_to_string` capability is invoked at most once,
and a failure of the read, the PEM decode, or the X.509 parse is returned
with the underlying error text unmodified. -/
theorem execute_propagates_library_errors {Tbs : Type} (lib : X509Lib Tbs)
    (p : FileProcessor) (path : String) (hf : p.is_file path = true) :
    ((executeTrace lib p [path]).calls.countP (fun c => c.isRead)) ≤ 1
    ∧ (∀ e, p.read_to_string path = Except.error e →
        (execute lib p [path]).result = RunResult.err e)
    ∧ (∀ content e, p.read_to_string path = Except.ok content →
        lib.pem_to_der (asBytes content) = Except.error e →
        (execute lib p [path]).result = RunResult.err e)
    ∧ (∀ content rest pem e, p.read_to_string path = Except.ok content →
        lib.pem_to_der (asBytes content) = Except.ok (rest, pem) →
        lib.parse_x509_der pem.contents = Except.error e →
        (execute lib p [path]).result = RunResult.err e) := by
  refine ⟨?_, ?_, ?_, ?_⟩
  · cases hr : p.read_to_string path with
    | error e =>
      simp [executeTrace, hf, hr, Call.isRead, List.countP_cons, List.countP_nil]
    | ok content =>
      cases hp : lib.pem_to_der (asBytes content) with
      | error e =>
        simp [executeTrace, hf, hr, hp, Call.isRead, List.countP_cons, List.countP_nil]
      | ok pr =>
        obtain ⟨r1, pem⟩ := pr
        cases hx : lib.parse_x509_der pem.contents with
        | error e =>
          simp [executeTrace, hf, hr, hp, hx, Call.isRead, List.countP_cons, List.countP_nil]
        | ok pc =>
          obtain ⟨r2, cert⟩ := pc
          simp [executeTrace, hf, hr, hp, hx, Call.isRead, List.countP_cons, List.countP_nil]
  · intro e hr
    simp [execute, hf, hr]
  · intro content e hr hp
    simp [execute, hf, hr, hp]
  · intro content rest pem e hr hp hx
    simp [execute, hf, hr, hp, hx]

/-- Witness for C5: a failing read capability propagates its own error
text. -/
theorem execute_propagates_library_errors_witness :
    (execute libTrivial procReadFail ["p"]).result = RunResult.err "read failure" :=
  (execute_propagates_library_errors libTrivial procReadFail "p" rfl).2.1 "read failure" rfl

/-- C6: for a single-element argument list whose path passes the
regular-file check and whose content is read successfully, if the PEM
decode fails, or the PEM decode succeeds and the X.509 parse of the
embedded bytes fails, then `execute` returns an error. -/
theorem execute_rejects_invalid {Tbs : Type} (lib : X509Lib Tbs)
    (p : FileProcessor) (path content : String)
    (hf : p.is_file path = true)
    (hr : p.read_to_string path = Except.ok content)
    (hbad : (∃ e, lib.pem_to_der (asBytes content) = Except.error e)
      ∨ (∃ rest pem e, lib.pem_to_der (asBytes content) = Except.ok (rest, pem)
          ∧ lib.parse_x509_der pem.contents = Except.error e)) :
    ∃ msg, (execute lib p [path]).result = RunResult.err msg := by
  rcases hbad with ⟨e, hp⟩ | ⟨rest, pem, e, hp, hx⟩
  · exact ⟨e, by simp [execute, hf, hr, hp]⟩
  · exact ⟨e, by simp [execute, hf, hr, hp, hx]⟩

/-- Witness for C6: content whose PEM decode fails makes `execute` fail. -/
theorem execute_rejects_invalid_witness :
    ∃ msg, (execute libFailPem (procContent "x") ["p"]).result = RunResult.err msg :=
  execute_rejects_invalid libFailPem (procContent "x") "p" "x" rfl rfl
    (Or.inl ⟨"pem decode failure", rfl⟩)

/-- C7: the pipeline short-circuits in order: with a wrong argument count no
capability at all is invoked, and when the regular-file check fails only
that single `is_file` call has happened — no read, PEM decode, or X.509
parse. -/
theorem execute_short_circuits {Tbs : Type} (lib : X509Lib Tbs)
    (p : FileProcessor) :
    (∀ args, args.length ≠ 1 → (executeTrace lib p args).calls = [])
    ∧ (∀ path, p.is_file path = false →
        (executeTrace lib p [path]).calls = [Call.isFile path]) := by
  constructor
  · intro args h
    simp [executeTrace, h]
  · intro path h
    simp [executeTrace, h]

/-- Witness for C7: a rejected path records exactly one `is_file` call. -/
theorem execute_short_circuits_witness :
    (executeTrace libTrivial procFalse ["q"]).calls = [Call.isFile "q"] :=
  (execute_short_circuits libTrivial procFalse).2 "q" rfl

/-- C8: `execute` is deterministic: identical argument lists and
`FileProcessor`s answering identically (pointwise equal capabilities)
produce identical results and standard-output text. -/
theorem execute_deterministic {Tbs : Type} (lib : X509Lib Tbs)
    (p1 p2 : FileProcessor) (args1 args2 : List String)
    (hargs : args1 = args2)
    (hfile : ∀ path, p1.is_file path = p2.is_file path)
    (hread : ∀ path, p1.read_to_string path = p2.read_to_string path) :
    execute lib p1 args1 = execute lib p2 args2 := by
  have hp : p1 = p2 := by
    obtain ⟨f1, g1⟩ := p1
    obtain ⟨f2, g2⟩ := p2
    simp only [FileProcessor.mk.injEq]
    exact ⟨funext hfile, funext hread⟩
  rw [hargs, hp]

/-- Witness for C8: two separately defined but pointwise equal processors
produce identical outcomes. -/
theorem execute_deterministic_witness :
    execute libTrivial procFalse [] = execute libTrivial procFalseAlt [] :=
  execute_deterministic libTrivial procFalse procFalseAlt [] [] rfl
    (fun _ => rfl) (fun _ => rfl)

/-- C9: `execute` is total and never panics: the `args[0]` index access is
guarded by the argument-count check, so the panic branch of the embedding
is unreachable for every library, processor and argument list. -/
theorem execute_never_panics {Tbs : Type} (lib : X509Lib Tbs)
    (p : FileProcessor) (args : List String) :
    (execute lib p args).result.isPanic = false := by
  rcases args with _ | ⟨a, _ | ⟨b, rest⟩⟩
  · simp [execute, RunResult.isPanic]
  · cases hf : p.is_file a
    · simp [execute, hf, RunResult.isPanic]
    · cases hr : p.read_to_string a with
      | error e => simp [execute, hf, hr, RunResult.isPanic]
      | ok content =>
        cases hp : lib.pem_to_der (asBytes content) with
        | error e => simp [execute, hf, hr, hp, RunResult.isPanic]
        | ok pr =>
          obtain ⟨r1, pem⟩ := pr
          cases hx : lib.parse_x509_der pem.contents with
          | error e => simp [execute, hf, hr, hp, hx, RunResult.isPanic]
          | ok pc =>
            obtain ⟨r2, cert⟩ := pc
            simp [execute, hf, hr, hp, hx, RunResult.isPanic]
  · simp [execute, RunResult.isPanic]

/-- C10: the unconsumed remainder of the PEM decode is discarded: two
contents on which `pem_to_der` yields the same PEM block (differing only in
the unconsumed remainder, e.g. trailing data after the block) make
`execute` behave identically. -/
theorem execute_trailing_ignored {Tbs : Type} (lib : X509Lib Tbs)
    (p1 p2 : FileProcessor) (path content1 content2 : String)
    (rest1 rest2 : List Nat) (pem : PemBlock)
    (hf1 : p1.is_file path = true) (hf2 : p2.is_file path = true)
    (hr1 : p1.read_to_string path = Except.ok content1)
    (hr2 : p2.read_to_string path = Except.ok content2)
    (hp1 : lib.pem_to_der (asBytes content1) = Except.ok (rest1, pem))
    (hp2 : lib.pem_to_der (asBytes content2) = Except.ok (rest2, pem)) :
    execute lib p1 [path] = execute lib p2 [path] := by
  simp [execute, hf1, hf2, hr1, hr2, hp1, hp2]

/-- Witness for C10: contents with different unconsumed remainders but the
same PEM block behave identically. -/
theorem execute_trailing_ignored_witness :
    execute libTrivial (procContent "AAA") ["p"]
      = execute libTrivial (procContent "AAAB") ["p"] :=
  execute_trailing_ignored libTrivial (procContent "AAA") (procContent "AAAB")
    "p" "AAA" "AAAB" (asBytes "AAA") (asBytes "AAAB")
    { label := "CERTIFICATE", contents := [48] } rfl rfl rfl rfl rfl rfl
